import Mathlib

/-!
Verification of the Open-Meteo weather dashboard pipeline
(`streamlit_weather_app.py`, original variant, and
`streamlit_weather_app_v2.py`, improved variant).

The two Python files are embedded shallowly:

* the JSON `hourly` object of a forecast response is a list of
  `(column name, list of cells)` pairs, in key order;
* `pandas` timestamp parsing (`pd.to_datetime`) is abstracted as a
  parameter `parse : Cell → Option Nat`: a cell either parses to a
  timestamp (modelled as a natural number, ordered as time is) or fails;
* `pd.DataFrame`, `set_index`, `dropna`, `sort_index`, `iloc` slicing,
  and `rename` are modelled faithfully, including Python slice semantics
  for negative bounds;
* HTTP transport and status outcomes are explicit inductive data;
  Python exceptions become an `Except PyErr` result;
* the Streamlit render pass is modelled as a function from the fetch
  result to a `Render` value recording which terminal UI state is
  reached (error banner, no-data warning, metric page, or an uncaught
  exception).
-/

/-- A cell value appearing in one of the `hourly` arrays of the JSON body:
a number, a string (e.g. a timestamp text), or JSON null. -/
inductive Cell where
  | num (n : Int)
  | str (s : String)
  | null
deriving DecidableEq, Repr

/-- Python exceptions that the two scripts can raise: a `requests`
transport error (connection failure / timeout), `raise_for_status` on a
4xx/5xx response, the `ValueError` pandas raises on a ragged dict, the
parse error `pd.to_datetime` raises (without `errors="coerce"`) on an
unparsable timestamp, a `KeyError` from indexing a row by a missing
column, and an `IndexError` from out-of-range positional indexing. -/
inductive PyErr where
  | transport
  | httpStatus (code : Nat)
  | valueErr
  | parseErr
  | keyErr (k : String)
  | indexErr
deriving DecidableEq, Repr

/-- The parsed `hourly` JSON object: column names with their value
arrays, in key order. -/
abbrev Hourly := List (String × List Cell)

/-- The tidy table (`pd.DataFrame`) returned by `fetch_hourly_weather`:
column display names, the timestamp index (`some` when the frame is
indexed by the parsed `time` column, `none` when it kept its positional
index), and the data rows (one list of cells per row, one cell per
column). -/
structure Series where
  cols : List String
  timeIndex : Option (List Nat)
  rows : List (List Cell)
deriving DecidableEq, Repr

/-- `df.empty`: true when the frame has no rows or no columns. -/
def Series.isEmpty (s : Series) : Bool := s.rows.isEmpty || s.cols.isEmpty

/-- Number of rows `pd.DataFrame(hourly)` has: the length of the value
arrays (they must all agree, see `sameLengths`). -/
def nRows (h : Hourly) : Nat :=
  match h with
  | [] => 0
  | c :: _ => c.2.length

/-- `pd.DataFrame` accepts a dict of lists only when all lists have the
same length (otherwise it raises `ValueError`). -/
def sameLengths (h : Hourly) : Bool :=
  match h with
  | [] => true
  | c :: rest => rest.all (fun d => d.2.length == c.2.length)

/-- Row `i` of the frame: the `i`-th entry of every column. -/
def getRow (h : Hourly) (i : Nat) : List Cell :=
  h.map (fun c => (c.2.get? i).getD Cell.null)

/-- The `n` rows of the frame, in order. -/
def rowsOfN (n : Nat) (h : Hourly) : List (List Cell) :=
  (List.range n).map (getRow h)

/-- Python list/`iloc` slicing `l[:h]` for an `int` bound `h` (negative
bounds count from the end, clamped at zero). -/
def pySliceTo (h : Int) (l : List α) : List α :=
  if 0 ≤ h then l.take h.toNat
  else l.take (l.length - (-h).toNat)

/-- Display label for temperature. -/
def tempLabel : String := "Temperature (°C)"

/-- Display label for precipitation. -/
def precipLabel : String := "Precipitation (mm)"

/-- Display label for wind speed. -/
def windLabel : String := "Wind Speed (km/h)"

/-- Display label for relative humidity. -/
def rhLabel : String := "Relative Humidity (%)"

/-- The `rename_map` dict of both scripts: raw Open-Meteo variable keys
to display labels. -/
def renameMap : List (String × String) :=
  [("temperature_2m", tempLabel),
   ("precipitation", precipLabel),
   ("windspeed_10m", windLabel),
   ("relative_humidity_2m", rhLabel)]

/-- `df.rename(columns=rename_map)` on a single column name: renamed if
it is one of the four raw keys, kept unchanged otherwise.  (The v2
variant pre-filters the dict to the keys present; for `rename` this is
semantically a no-op, since pandas ignores absent keys.) -/
def renameKey (k : String) : String := (renameMap.lookup k).getD k

/-- The sort order used to model `sort_index()` on the time-indexed
rows: ascending by timestamp.  The sort itself is modelled by the
(stable, structurally recursive) `List.insertionSort`; any correct sort
yields the same sortedness, length and multiset properties. -/
def byTime (a b : Nat × List Cell) : Prop := a.1 ≤ b.1

instance : DecidableRel byTime := fun a b => Nat.decLe a.1 b.1

instance : IsTotal (Nat × List Cell) byTime := ⟨fun a b => Nat.le_total a.1 b.1⟩

instance : IsTrans (Nat × List Cell) byTime := ⟨fun _ _ _ => Nat.le_trans⟩

/-- `pd.to_datetime` in its default raise mode, over a whole column: all
cells parsed, or a failure as soon as one cell is unparsable. -/
def parseAll (parse : Cell → Option Nat) : List Cell → Option (List Nat)
  | [] => some []
  | c :: rest =>
      match parse c, parseAll parse rest with
      | some t, some ts => some (t :: ts)
      | _, _ => none

/-- The columns other than `"time"`: what remains as data after
`set_index("time")` removes the time column. -/
def dataColumns (h : Hourly) : Hourly := h.filter (fun c => c.1 != "time")

/-- The (timestamp, data row) pairs of the original variant once the
time column has parsed to `times`: the time index is zipped with the
data rows, in upstream order. -/
def pairedRows_v1 (h : Hourly) (times : List Nat) : List (Nat × List Cell) :=
  times.zip (rowsOfN (nRows h) (dataColumns h))

/-- The (timestamp, data row) pairs surviving the improved variant's
`pd.to_datetime(..., errors="coerce")` plus `dropna(subset=["time"])`:
each time cell is parsed, rows whose cell fails to parse (NaT) are
dropped. -/
def keptRows (parse : Cell → Option Nat) (h : Hourly) (tcol : List Cell) :
    List (Nat × List Cell) :=
  ((tcol.map parse).zip (rowsOfN (nRows h) (dataColumns h))).filterMap
    (fun p => p.1.map (fun t => (t, p.2)))

/-- The rows of the improved variant after `sort_index()` and the
guarded truncation `if hours > 0: df = df.iloc[:hours]`. -/
def finalRows_v2 (parse : Cell → Option Nat) (h : Hourly) (tcol : List Cell)
    (hours : Int) : List (Nat × List Cell) :=
  let sorted := (keptRows parse h tcol).insertionSort byTime
  if 0 < hours then pySliceTo hours sorted else sorted

/-- The pure part of the original variant's `fetch_hourly_weather`
(`streamlit_weather_app.py`, lines 63-79), applied to the parsed
`hourly` object:
`df = pd.DataFrame(hourly)`; if `"time"` is a column, convert it with
`pd.to_datetime` (raising on any unparsable cell), set it as index and
slice `df.iloc[:hours]`; finally rename columns.  No sorting, no
dropping of bad rows, no empty-guard. -/
def processHourly_v1 (parse : Cell → Option Nat) (h : Hourly) (hours : Int) :
    Except PyErr Series :=
  if sameLengths h = false then .error .valueErr
  else
    match h.lookup "time" with
    | none =>
        .ok ⟨h.map (fun c => renameKey c.1), none, rowsOfN (nRows h) h⟩
    | some tcol =>
        match parseAll parse tcol with
        | none => .error .parseErr
        | some times =>
            let final := pySliceTo hours (pairedRows_v1 h times)
            .ok ⟨(dataColumns h).map (fun c => renameKey c.1),
                 some (final.map Prod.fst),
                 final.map Prod.snd⟩

/-- The pure part of the improved variant's `fetch_hourly_weather`
(`streamlit_weather_app_v2.py`, lines 79-96): if `"time"` is absent or
the frame is empty, return an explicitly empty frame; otherwise parse
times with `errors="coerce"`, drop rows whose time is NaT, set the time
index, sort ascending by it, truncate to `hours` rows only when
`hours > 0`, and rename the columns that are present. -/
def processHourly_v2 (parse : Cell → Option Nat) (h : Hourly) (hours : Int) :
    Except PyErr Series :=
  if sameLengths h = false then .error .valueErr
  else
    match h.lookup "time" with
    | none => .ok ⟨[], none, []⟩
    | some tcol =>
        if nRows h = 0 then .ok ⟨[], none, []⟩
        else
          let final := finalRows_v2 parse h tcol hours
          .ok ⟨(dataColumns h).map (fun c => renameKey c.1),
               some (final.map Prod.fst),
               final.map Prod.snd⟩

/-- Outcome of the forecast HTTP GET: a transport failure (connection
error or timeout, raised by `requests.get`), or a response with a status
code and the parsed `hourly` object of the JSON body (`js.get("hourly")
or {}` makes a missing or null `hourly` the empty object). -/
inductive ForecastResp where
  | transportErr
  | ok (status : Nat) (hourly : Hourly)
deriving DecidableEq, Repr

/-- `r.raise_for_status()` raises for status codes in [400, 600). -/
def statusFails (status : Nat) : Bool := 400 ≤ status && status < 600

/-- `fetch_hourly_weather` of the original variant
(`streamlit_weather_app.py`, lines 52-79): transport errors and
`raise_for_status` propagate as exceptions, otherwise the `hourly`
object is processed. -/
def fetch_hourly_weather_v1 (parse : Cell → Option Nat) (resp : ForecastResp)
    (hours : Int) : Except PyErr Series :=
  match resp with
  | .transportErr => .error .transport
  | .ok status h =>
      if statusFails status then .error (.httpStatus status)
      else processHourly_v1 parse h hours

/-- `fetch_hourly_weather` of the improved variant
(`streamlit_weather_app_v2.py`, lines 69-96). -/
def fetch_hourly_weather_v2 (parse : Cell → Option Nat) (resp : ForecastResp)
    (hours : Int) : Except PyErr Series :=
  match resp with
  | .transportErr => .error .transport
  | .ok status h =>
      if statusFails status then .error (.httpStatus status)
      else processHourly_v2 parse h hours

/-- One summary metric tile: a value read from the summary row, or the
explicit "N/A" marker. -/
inductive Metric where
  | val (c : Cell)
  | na
deriving DecidableEq, Repr

/-- Terminal state of one render pass: `errorBanner` is `st.error` +
`st.stop` after a fetch exception (no charts, no metrics);
`noDataWarning` is `st.warning` + `st.stop` on an empty frame (no
charts, no metrics); `page` is the full page with its four summary
metric tiles; `crash` is an uncaught Python exception aborting the
script. -/
inductive Render where
  | errorBanner (e : PyErr)
  | noDataWarning
  | page (metrics : List Metric)
  | crash (e : PyErr)
deriving DecidableEq, Repr

/-- `df.iloc[i]` for an `int` row position `i`: Python negative indices
count from the end; out of range raises `IndexError` (modelled as
`none`). -/
def ilocRow (i : Int) (rows : List (List Cell)) : Option (List Cell) :=
  if 0 ≤ i then rows.get? i.toNat
  else if (-i).toNat ≤ rows.length then rows.get? (rows.length - (-i).toNat)
  else none

/-- `row[col]` on a pandas row: `KeyError` when `col` is not a column of
the frame, the cell at the column's position otherwise. -/
def rowGet (s : Series) (row : List Cell) (col : String) : Except PyErr Cell :=
  match s.cols.findIdx? (fun c => c == col) with
  | none => .error (.keyErr col)
  | some i => .ok ((row.get? i).getD Cell.null)

/-- The summary cards of the original variant
(`streamlit_weather_app.py`, lines 121-126): the four metrics are read
from the summary row without any guard, in the order temperature, wind
speed, precipitation, relative humidity; the first missing column raises
`KeyError` and crashes the render pass. -/
def pageFrom_v1 (s : Series) (latest : List Cell) : Render :=
  match (do
      let t ← rowGet s latest tempLabel
      let w ← rowGet s latest windLabel
      let p ← rowGet s latest precipLabel
      let r ← rowGet s latest rhLabel
      pure [Metric.val t, Metric.val w, Metric.val p, Metric.val r] :
      Except PyErr (List Metric)) with
  | .error e => .crash e
  | .ok ms => .page ms

/-- One guarded metric of the improved variant
(`streamlit_weather_app_v2.py`, lines 139-157): `if col in df:` render
the value, `else` render the "N/A" marker. -/
def metric_v2 (s : Series) (latest : List Cell) (col : String) : Metric :=
  if s.cols.contains col then
    match rowGet s latest col with
    | .ok c => .val c
    | .error _ => .na
  else .na

/-- The summary cards of the improved variant, same metric order. -/
def pageFrom_v2 (s : Series) (latest : List Cell) : Render :=
  .page [metric_v2 s latest tempLabel, metric_v2 s latest windLabel,
         metric_v2 s latest precipLabel, metric_v2 s latest rhLabel]

/-- The top-level render pass of the original variant around the fetch
(`streamlit_weather_app.py`, lines 109-126): a fetch exception shows the
error banner and stops; an empty frame shows the warning and stops;
otherwise `latest = df.iloc[0]` and the summary cards are rendered. -/
def present_v1 (fr : Except PyErr Series) : Render :=
  match fr with
  | .error e => .errorBanner e
  | .ok s =>
      if s.isEmpty then .noDataWarning
      else
        match ilocRow 0 s.rows with
        | none => .crash .indexErr
        | some latest => pageFrom_v1 s latest

/-- The top-level render pass of the improved variant
(`streamlit_weather_app_v2.py`, lines 123-157): same structure, but
`latest = df.iloc[-1]` and the guarded summary cards. -/
def present_v2 (fr : Except PyErr Series) : Render :=
  match fr with
  | .error e => .errorBanner e
  | .ok s =>
      if s.isEmpty then .noDataWarning
      else
        match ilocRow (-1) s.rows with
        | none => .crash .indexErr
        | some latest => pageFrom_v2 s latest

/-- One entry of the reverse-geocoding `results` array; each field may
be absent (or null, which `dict.get` also yields as None). -/
structure GeoItem where
  name : Option String
  admin1 : Option String
  admin2 : Option String
  country : Option String
deriving DecidableEq, Repr

/-- Outcome of the reverse-geocoding HTTP GET: transport failure,
malformed JSON body (`r.json()` raises), or a response with a status
code and the parsed `results` array (`js.get("results") or []` makes a
missing or null `results` the empty list). -/
inductive GeoResp where
  | transportErr
  | badJson
  | ok (status : Nat) (results : List GeoItem)
deriving DecidableEq, Repr

/-- Python `a or b` for an optional string `a` (None and `""` are
falsy): the string if truthy, the fallback otherwise. -/
def pyOr (a : Option String) (dflt : String) : String :=
  match a with
  | some s => if s = "" then dflt else s
  | none => dflt

/-- The list comprehension `[p for p in [city, admin, country] if p]`:
keep the truthy entries (present and non-empty). -/
def keepTruthy (l : List (Option String)) : List String :=
  l.filterMap (fun o => o.bind (fun s => if s = "" then none else some s))

/-- Python `", ".join(parts)`. -/
def joinComma : List String → String
  | [] => ""
  | [p] => p
  | p :: rest => p ++ ", " ++ joinComma rest

/-- Composing the place label from the first geocoding result
(both variants, e.g. `streamlit_weather_app.py`, lines 42-46):
`city = item.get("name")`,
`admin = item.get("admin1") or item.get("admin2") or ""`,
`country = item.get("country") or ""`,
then join the truthy parts with `", "`. -/
def composeLabel (item : GeoItem) : String :=
  joinComma (keepTruthy
    [item.name,
     some (pyOr item.admin1 (pyOr item.admin2 "")),
     some (pyOr item.country "")])

/-- Left-pad the fractional part to three digits. -/
def pad3 (n : Nat) : String :=
  if n < 10 then "00" ++ toString n
  else if n < 100 then "0" ++ toString n
  else toString n

/-- Python `f"{x:.3f}"` on a coordinate, with coordinates modelled as
rationals: fixed-point rendering with three decimal places.  The scaled
magnitude `⌊|q|·1000 + 1/2⌋` is computed as
`(|num|·2000 + den) / (2·den)` in natural-number arithmetic.  (CPython
rounds the underlying binary double to even; here ties round up, which
changes no claim below.) -/
def fmt3 (q : ℚ) : String :=
  let m : Nat := (q.num.natAbs * 2000 + q.den) / (2 * q.den)
  let sign := if q.num < 0 then "-" else ""
  sign ++ toString (m / 1000) ++ "." ++ pad3 (m % 1000)

/-- The fallback string `f"{lat:.3f}, {lon:.3f}"` returned by
`reverse_geocode` on every failure path. -/
def coordFallback (lat lon : ℚ) : String := fmt3 lat ++ ", " ++ fmt3 lon

/-- `reverse_geocode` of both variants (`streamlit_weather_app.py`,
lines 30-49): any exception inside the `try` (transport error, bad
JSON, `raise_for_status`) is swallowed and, like an empty `results`
list, falls through to the coordinate fallback; a non-empty `results`
list returns the label composed from its first entry. -/
def reverse_geocode (lat lon : ℚ) (resp : GeoResp) : String :=
  match resp with
  | .transportErr => coordFallback lat lon
  | .badJson => coordFallback lat lon
  | .ok status results =>
      if statusFails status then coordFallback lat lon
      else
        match results with
        | [] => coordFallback lat lon
        | item :: _ => composeLabel item

/-- A concrete timestamp parser used to instantiate the abstract
`pd.to_datetime` cell parser in witnesses and counterexamples: the
string cells `"t1"`, `"t2"`, `"t3"` parse to hours 1, 2, 3 and every
other cell is unparsable. -/
def parse0 : Cell → Option Nat
  | .str s =>
      if s = "t1" then some 1
      else if s = "t2" then some 2
      else if s = "t3" then some 3
      else none
  | _ => none

deriving instance DecidableEq for Except

/-- The four raw variable keys of the rename dict. -/
def rawKeys : List String :=
  ["temperature_2m", "precipitation", "windspeed_10m", "relative_humidity_2m"]

/-- Truthiness of an optional string, as Python evaluates it: present
and non-empty. -/
def truthy : Option String → Bool
  | none => false
  | some s => !(s == "")

/-- A concrete non-empty series lacking the precipitation column, used
to instantiate the defensive-metrics theorem. -/
def sNoPrecip : Series :=
  ⟨[tempLabel, windLabel, rhLabel], some [1], [[.num 20, .num 5, .num 60]]⟩

/-! ### Helper lemmas about the embedding -/

theorem lookup_mem {β : Type} {l : List (String × β)} {k : String} {v : β}
    (h : l.lookup k = some v) : (k, v) ∈ l := by
  induction l with
  | nil => simp at h
  | cons p t ih =>
    rcases p with ⟨a, b⟩
    rw [List.lookup_cons] at h
    by_cases hk : k = a
    · subst hk
      rw [show (k == k) = true from beq_self_eq_true k] at h
      simp at h
      subst h
      exact List.mem_cons_self _ _
    · have hfalse : (k == a) = false := by
        simp [hk]
      rw [hfalse] at h
      exact List.mem_cons_of_mem _ (ih h)

theorem length_eq_nRows {h : Hourly} (hw : sameLengths h = true)
    {k : String} {v : List Cell} (hm : (k, v) ∈ h) : v.length = nRows h := by
  cases h with
  | nil => simp at hm
  | cons c t =>
    simp only [sameLengths, List.all_eq_true, beq_iff_eq] at hw
    rcases List.mem_cons.mp hm with h1 | h2
    · rw [show v = c.2 from congrArg Prod.snd h1]
      rfl
    · exact hw _ h2

theorem length_rowsOfN (n : Nat) (h : Hourly) : (rowsOfN n h).length = n := by
  simp [rowsOfN]

/-- The dropped-NaT rows, projected to their timestamps, are exactly the
parsable entries of the raw time column. -/
theorem kept_map_fst (parse : Cell → Option Nat) :
    ∀ (l : List Cell) (r : List (List Cell)), l.length = r.length →
      (((l.map parse).zip r).filterMap
          (fun p => p.1.map (fun t => (t, p.2)))).map Prod.fst
        = l.filterMap parse := by
  intro l
  induction l with
  | nil => intro r _; simp
  | cons c t ih =>
    intro r hlen
    cases r with
    | nil => simp at hlen
    | cons row rt =>
      have hlen' : t.length = rt.length := by simpa using hlen
      simp only [List.map_cons, List.zip_cons_cons, List.filterMap_cons]
      cases hp : parse c with
      | none => simpa [hp] using ih rt hlen'
      | some t0 => simp [hp, ih rt hlen']

theorem pairwise_le_of_pairwise_byTime {l : List (Nat × List Cell)}
    (h : List.Pairwise byTime l) :
    List.Pairwise (fun a b : Nat => a ≤ b) (l.map Prod.fst) := by
  rw [List.pairwise_map]
  exact h.imp (fun hab => hab)

theorem strict_of_le_nodup {l : List Nat}
    (hle : List.Pairwise (fun a b : Nat => a ≤ b) l) (hnd : l.Nodup) :
    List.Pairwise (fun a b : Nat => a < b) l :=
  (hle.and hnd).imp (fun hab => lt_of_le_of_ne hab.1 hab.2)

theorem ilocRow_zero (rows : List (List Cell)) : ilocRow 0 rows = rows.head? := by
  simp [ilocRow, List.get?_eq_getElem?, List.head?_eq_getElem?]

theorem ilocRow_neg_one {rows : List (List Cell)} (h : rows ≠ []) :
    ilocRow (-1) rows = rows.getLast? := by
  have hpos : 0 < rows.length := List.length_pos.mpr h
  have h1 : ((-(-1 : Int)).toNat) = 1 := rfl
  simp only [ilocRow, h1]
  rw [if_neg (by omega), if_pos (by omega)]
  rw [List.get?_eq_getElem?, List.getLast?_eq_getElem?]

theorem rowGet_ok_of_contains (s : Series) (row : List Cell) (col : String)
    (h : s.cols.contains col = true) : ∃ c, rowGet s row col = .ok c := by
  have : (s.cols.findIdx? (fun c => c == col)).isSome = true := by
    rw [List.findIdx?_isSome]
    rcases List.elem_iff.mp h with hmem
    exact List.any_of_mem hmem (by simp)
  rcases Option.isSome_iff_exists.mp this with ⟨i, hi⟩
  exact ⟨(row.get? i).getD Cell.null, by simp [rowGet, hi, List.get?_eq_getElem?]⟩

theorem rowGet_err_of_not_contains (s : Series) (row : List Cell) (col : String)
    (h : s.cols.contains col = false) : rowGet s row col = .error (.keyErr col) := by
  have : (s.cols.findIdx? (fun c => c == col)) = none := by
    rw [← Option.not_isSome_iff_eq_none, List.findIdx?_isSome]
    intro hany
    rcases List.any_eq_true.mp hany with ⟨a, ha, hpa⟩
    have hmem : col ∈ s.cols := by
      have : a = col := by simpa using hpa
      exact this ▸ ha
    have hcontra : s.cols.contains col = true := List.elem_iff.mpr hmem
    exact absurd (h.symm.trans hcontra) (by decide)
  simp [rowGet, this]

theorem renameKey_cases (k : String) : renameKey k = k ∨ k ∈ rawKeys := by
  by_cases h1 : k = "temperature_2m"
  · right; simp [rawKeys, h1]
  by_cases h2 : k = "precipitation"
  · right; simp [rawKeys, h2]
  by_cases h3 : k = "windspeed_10m"
  · right; simp [rawKeys, h3]
  by_cases h4 : k = "relative_humidity_2m"
  · right; simp [rawKeys, h4]
  left
  simp [renameKey, renameMap, List.lookup_cons,
        show (k == "temperature_2m") = false by simp [h1],
        show (k == "precipitation") = false by simp [h2],
        show (k == "windspeed_10m") = false by simp [h3],
        show (k == "relative_humidity_2m") = false by simp [h4]]

theorem renameKey_eq_label {k raw lbl : String} (hpair : (raw, lbl) ∈ renameMap)
    (hk : renameKey k = lbl) : k = raw ∨ k = lbl := by
  rcases renameKey_cases k with hid | hmem
  · right
    rw [← hk, hid]
  · simp only [renameMap, List.mem_cons, List.mem_singleton, Prod.mk.injEq,
      List.not_mem_nil, or_false] at hpair
    simp only [rawKeys, List.mem_cons, List.mem_singleton, List.not_mem_nil,
      or_false] at hmem
    rcases hmem with rfl | rfl | rfl | rfl <;>
      rcases hpair with ⟨rfl, rfl⟩ | ⟨rfl, rfl⟩ | ⟨rfl, rfl⟩ | ⟨rfl, rfl⟩ <;>
      first
        | (left; rfl)
        | (exact absurd hk (by decide))

/-- Every output column of the original variant's processing comes from
an input column: the rename never synthesizes a column. -/
theorem cols_v1_from_input (parse : Cell → Option Nat) (h : Hourly) (hours : Int)
    (s : Series) (hok : processHourly_v1 parse h hours = .ok s) :
    ∀ c ∈ s.cols, ∃ k ∈ h.map Prod.fst, c = renameKey k := by
  unfold processHourly_v1 at hok
  split at hok
  · cases hok
  · split at hok
    · cases hok
      intro c hc
      rcases List.mem_map.mp hc with ⟨el, hel, rfl⟩
      exact ⟨el.1, List.mem_map_of_mem _ hel, rfl⟩
    · split at hok
      · cases hok
      · cases hok
        intro c hc
        rcases List.mem_map.mp hc with ⟨el, hel, rfl⟩
        exact ⟨el.1, List.mem_map_of_mem _ (List.mem_of_mem_filter hel), rfl⟩

/-- Every output column of the improved variant's processing comes from
an input column: the rename never synthesizes a column. -/
theorem cols_v2_from_input (parse : Cell → Option Nat) (h : Hourly) (hours : Int)
    (s : Series) (hok : processHourly_v2 parse h hours = .ok s) :
    ∀ c ∈ s.cols, ∃ k ∈ h.map Prod.fst, c = renameKey k := by
  unfold processHourly_v2 at hok
  split at hok
  · cases hok
  · split at hok
    · cases hok
      intro c hc
      simp at hc
    · split at hok
      · cases hok
        intro c hc
        simp at hc
      · cases hok
        intro c hc
        rcases List.mem_map.mp hc with ⟨el, hel, rfl⟩
        exact ⟨el.1, List.mem_map_of_mem _ (List.mem_of_mem_filter hel), rfl⟩

/-- Shape of the original variant's result when the time column is
present and every timestamp parses. -/
theorem processHourly_v1_ok {parse : Cell → Option Nat} {h : Hourly}
    {tcol : List Cell} {times : List Nat} (hours : Int)
    (hw : sameLengths h = true) (ht : h.lookup "time" = some tcol)
    (hp : parseAll parse tcol = some times) :
    processHourly_v1 parse h hours =
      .ok ⟨(dataColumns h).map (fun c => renameKey c.1),
           some ((pySliceTo hours (pairedRows_v1 h times)).map Prod.fst),
           (pySliceTo hours (pairedRows_v1 h times)).map Prod.snd⟩ := by
  simp [processHourly_v1, hw, ht, hp]

/-- Shape of the improved variant's result on the non-empty path. -/
theorem processHourly_v2_ok {parse : Cell → Option Nat} {h : Hourly}
    {tcol : List Cell} (hours : Int)
    (hw : sameLengths h = true) (ht : h.lookup "time" = some tcol)
    (hn : nRows h ≠ 0) :
    processHourly_v2 parse h hours =
      .ok ⟨(dataColumns h).map (fun c => renameKey c.1),
           some ((finalRows_v2 parse h tcol hours).map Prod.fst),
           (finalRows_v2 parse h tcol hours).map Prod.snd⟩ := by
  simp [processHourly_v2, hw, ht, hn]

/-- The improved variant's empty path: missing time column or zero rows
give the explicitly empty frame. -/
theorem processHourly_v2_empty {parse : Cell → Option Nat} {h : Hourly}
    (hours : Int) (hw : sameLengths h = true)
    (hempty : h.lookup "time" = none ∨ nRows h = 0) :
    processHourly_v2 parse h hours = .ok ⟨[], none, []⟩ := by
  rcases hempty with ht | hn
  · simp [processHourly_v2, hw, ht]
  · rcases he : h.lookup "time" with _ | tcol
    · simp [processHourly_v2, hw, he]
    · simp [processHourly_v2, hw, he, hn]

/-- Under `sameLengths`, the time column found by `lookup` has exactly
`nRows h` entries. -/
theorem tcol_length {h : Hourly} {tcol : List Cell}
    (hw : sameLengths h = true) (ht : h.lookup "time" = some tcol) :
    tcol.length = nRows h :=
  length_eq_nRows hw (lookup_mem ht)

/-- The timestamps of the surviving rows are exactly the parsable
entries of the time column. -/
theorem keptRows_map_fst {parse : Cell → Option Nat} {h : Hourly}
    {tcol : List Cell} (hw : sameLengths h = true)
    (ht : h.lookup "time" = some tcol) :
    (keptRows parse h tcol).map Prod.fst = tcol.filterMap parse := by
  unfold keptRows
  exact kept_map_fst parse tcol _ (by rw [tcol_length hw ht, length_rowsOfN])

theorem pyOr_of_falsy {a : Option String} (ha : truthy a = false) (d : String) :
    pyOr a d = d := by
  cases a with
  | none => rfl
  | some s =>
    simp only [truthy] at ha
    rw [Bool.not_eq_false'] at ha
    have hs : s = "" := by simpa using ha
    simp [pyOr, hs]

theorem pyOr_of_truthy {a : Option String} (ha : truthy a = true) (d : String) :
    pyOr a d = a.getD "" ∧ pyOr a d ≠ "" := by
  cases a with
  | none => simp [truthy] at ha
  | some s =>
    have hs : s ≠ "" := by
      intro h0
      rw [h0] at ha
      simp [truthy] at ha
    simp [pyOr, hs]

theorem keepTruthy_mem {l : List (Option String)} {p : String}
    (hp : p ∈ keepTruthy l) : p ≠ "" := by
  simp only [keepTruthy, List.mem_filterMap] at hp
  rcases hp with ⟨o, _, ho⟩
  cases o with
  | none => simp at ho
  | some s =>
    simp only [Option.some_bind] at ho
    by_cases hs : s = ""
    · simp [hs] at ho
    · rw [if_neg hs] at ho
      cases ho
      exact hs

theorem joinComma_ne_empty :
    ∀ (l : List String), (∀ p ∈ l, p ≠ "") → l ≠ [] → joinComma l ≠ "" := by
  intro l hall hne
  match l with
  | [p] => simpa [joinComma] using hall p (by simp)
  | p :: q :: rest =>
    intro hcontra
    have hlen := congrArg String.length hcontra
    rw [show joinComma (p :: q :: rest) = p ++ ", " ++ joinComma (q :: rest) from rfl]
      at hlen
    rw [String.length_append, String.length_append] at hlen
    have hp : p ≠ "" := hall p (by simp)
    have hplen : p.length ≠ 0 := fun h0 => hp (by
      cases p with
      | mk data => cases data with
        | nil => rfl
        | cons c cs => simp [String.length] at h0)
    have h2 : (", ").length = 2 := by decide
    have h0 : ("" : String).length = 0 := by decide
    omega

theorem coordFallback_ne_empty (lat lon : ℚ) : coordFallback lat lon ≠ "" := by
  intro hcontra
  have hlen := congrArg String.length hcontra
  rw [coordFallback, String.length_append, String.length_append] at hlen
  have h2 : (", ").length = 2 := by decide
  have h0 : ("" : String).length = 0 := by decide
  omega

theorem pySliceTo_sublist (H : Int) (l : List α) : (pySliceTo H l).Sublist l := by
  unfold pySliceTo
  split <;> exact List.take_sublist _ _

theorem pySliceTo_nonneg {H : Int} (hH : 0 ≤ H) (l : List α) :
    pySliceTo H l = l.take H.toNat := by
  simp [pySliceTo, hH]

/-! ### Claim theorems -/

/-- C2: whenever the forecast HTTP call fails (transport error, timeout,
or non-success status), fetch_hourly_weather raises rather than
swallowing the error, and the caller renders a visible error message and
halts the render pass (no charts or metrics are rendered) — in both
variants. -/
theorem forecast_failure_surfaces_both (parse : Cell → Option Nat)
    (resp : ForecastResp) (hours : Int)
    (hfail : resp = .transportErr ∨
      ∃ status h, resp = .ok status h ∧ statusFails status = true) :
    ∃ e : PyErr,
      fetch_hourly_weather_v1 parse resp hours = .error e ∧
      fetch_hourly_weather_v2 parse resp hours = .error e ∧
      present_v1 (fetch_hourly_weather_v1 parse resp hours) = .errorBanner e ∧
      present_v2 (fetch_hourly_weather_v2 parse resp hours) = .errorBanner e := by
  rcases hfail with hte | ⟨status, h, rfl, hst⟩
  · subst hte
    exact ⟨.transport, rfl, rfl, rfl, rfl⟩
  · refine ⟨.httpStatus status, ?_, ?_, ?_, ?_⟩ <;>
      simp [fetch_hourly_weather_v1, fetch_hourly_weather_v2, present_v1,
        present_v2, hst]

theorem forecast_failure_surfaces_both_witness :
    ((ForecastResp.ok 500 []) = ForecastResp.transportErr ∨
      ∃ status h, (ForecastResp.ok 500 []) = ForecastResp.ok status h ∧
        statusFails status = true) ∧
    (∃ e : PyErr,
      fetch_hourly_weather_v1 parse0 (.ok 500 []) 48 = .error e ∧
      fetch_hourly_weather_v2 parse0 (.ok 500 []) 48 = .error e ∧
      present_v1 (fetch_hourly_weather_v1 parse0 (.ok 500 []) 48) = .errorBanner e ∧
      present_v2 (fetch_hourly_weather_v2 parse0 (.ok 500 []) 48) = .errorBanner e) :=
  ⟨Or.inr ⟨500, [], rfl, by decide⟩,
   forecast_failure_surfaces_both parse0 (.ok 500 []) 48
     (Or.inr ⟨500, [], rfl, by decide⟩)⟩

/-- C1 (refuting the claim as stated): the original variant does not
sort at all — with upstream timestamps out of order and every row kept,
the returned HourlySeries has index [2, 1], which is not ascending (so
in particular not strictly ascending). -/
theorem hourly_series_sorted_cx :
    fetch_hourly_weather_v1 parse0
        (.ok 200 [("time", [.str "t2", .str "t1"]),
                  ("temperature_2m", [.num 20, .num 21])]) 48
      = .ok ⟨[tempLabel], some [2, 1], [[.num 20], [.num 21]]⟩ ∧
    ¬ List.Pairwise (fun a b : Nat => a ≤ b) [2, 1] :=
  ⟨by decide, by decide⟩

/-- C1 (amended): for every successful forecast response and positive
requested hour count H, the improved variant's HourlySeries has row
count at most H and its timestamp index is sorted ascending
(non-decreasing, and strictly ascending whenever the timestamps are
distinct); the original variant does not sort, but — when the time field
is present and every timestamp parses — it also returns at most H rows
(in upstream order). -/
theorem hourly_series_bounded_sorted (parse : Cell → Option Nat) (status : Nat)
    (h : Hourly) (H : Int) (hst : statusFails status = false)
    (hw : sameLengths h = true) (hH : 0 < H) :
    (∀ s, fetch_hourly_weather_v2 parse (.ok status h) H = .ok s →
        s.rows.length ≤ H.toNat ∧
        ∀ l, s.timeIndex = some l →
          l.Pairwise (fun a b : Nat => a ≤ b) ∧
          (l.Nodup → l.Pairwise (fun a b : Nat => a < b))) ∧
    (∀ tcol times s, h.lookup "time" = some tcol →
        parseAll parse tcol = some times →
        fetch_hourly_weather_v1 parse (.ok status h) H = .ok s →
        s.rows.length ≤ H.toNat) := by
  constructor
  · intro s hs
    simp only [fetch_hourly_weather_v2, hst, Bool.false_eq_true, if_false] at hs
    rcases hlk : h.lookup "time" with _ | tcol
    · rw [processHourly_v2_empty H hw (Or.inl hlk)] at hs
      cases hs
      exact ⟨Nat.zero_le _, fun l hl => by cases hl⟩
    · by_cases hn : nRows h = 0
      · rw [processHourly_v2_empty H hw (Or.inr hn)] at hs
        cases hs
        exact ⟨Nat.zero_le _, fun l hl => by cases hl⟩
      · rw [processHourly_v2_ok H hw hlk hn] at hs
        cases hs
        have hfin : finalRows_v2 parse h tcol H =
            ((keptRows parse h tcol).insertionSort byTime).take H.toNat := by
          rw [finalRows_v2, if_pos hH, pySliceTo_nonneg (le_of_lt hH)]
        constructor
        · rw [List.length_map, hfin, List.length_take]
          exact Nat.min_le_left _ _
        · intro l hl
          have hl' : l = (finalRows_v2 parse h tcol H).map Prod.fst := by
            cases hl
            rfl
          have hsorted : List.Pairwise byTime (finalRows_v2 parse h tcol H) := by
            rw [hfin]
            exact (List.sorted_insertionSort byTime _).sublist
              (List.take_sublist _ _)
          have hle : l.Pairwise (fun a b : Nat => a ≤ b) := by
            rw [hl']
            exact pairwise_le_of_pairwise_byTime hsorted
          exact ⟨hle, fun hnd => strict_of_le_nodup hle hnd⟩
  · intro tcol times s hlk hp hs
    simp only [fetch_hourly_weather_v1, hst, Bool.false_eq_true, if_false] at hs
    rw [processHourly_v1_ok H hw hlk hp] at hs
    cases hs
    rw [List.length_map, pySliceTo_nonneg (le_of_lt hH), List.length_take]
    exact Nat.min_le_left _ _

theorem hourly_series_bounded_sorted_witness :
    (statusFails 200 = false ∧
     sameLengths [("time", [Cell.str "t1", Cell.str "t2"]),
                  ("temperature_2m", [Cell.num 20, Cell.num 21])] = true ∧
     (0 : Int) < 48) ∧
    ((∀ s, fetch_hourly_weather_v2 parse0
          (.ok 200 [("time", [Cell.str "t1", Cell.str "t2"]),
                    ("temperature_2m", [Cell.num 20, Cell.num 21])]) 48 = .ok s →
        s.rows.length ≤ (48 : Int).toNat ∧
        ∀ l, s.timeIndex = some l →
          l.Pairwise (fun a b : Nat => a ≤ b) ∧
          (l.Nodup → l.Pairwise (fun a b : Nat => a < b))) ∧
     (∀ tcol times s,
        (([("time", [Cell.str "t1", Cell.str "t2"]),
           ("temperature_2m", [Cell.num 20, Cell.num 21])] : Hourly).lookup "time")
          = some tcol →
        parseAll parse0 tcol = some times →
        fetch_hourly_weather_v1 parse0
          (.ok 200 [("time", [Cell.str "t1", Cell.str "t2"]),
                    ("temperature_2m", [Cell.num 20, Cell.num 21])]) 48 = .ok s →
        s.rows.length ≤ (48 : Int).toNat)) :=
  ⟨⟨by decide, by decide, by decide⟩,
   hourly_series_bounded_sorted parse0 200 _ 48 (by decide) (by decide) (by decide)⟩

/-- C6 (refuting the claim as stated): in the original variant a row
with an unparsable timestamp does not get dropped — it makes the whole
fetch raise the datetime parse error. -/
theorem unparsable_rows_cx :
    fetch_hourly_weather_v1 parse0
        (.ok 200 [("time", [.str "t1", .str "x"]),
                  ("temperature_2m", [.num 20, .num 21])]) 48
      = .error .parseErr ∧
    fetch_hourly_weather_v2 parse0
        (.ok 200 [("time", [.str "t1", .str "x"]),
                  ("temperature_2m", [.num 20, .num 21])]) 48
      = .ok ⟨[tempLabel], some [1], [[.num 20]]⟩ :=
  ⟨by decide, by decide⟩

/-- C6 (amended): in the improved variant, every row whose timestamp is
unparsable is dropped: the fetch succeeds, the number of rows returned
is the number of parsable timestamps capped at H, and every indexed
timestamp comes from a parsable time cell.  In the original variant a
single unparsable timestamp instead makes the fetch raise. -/
theorem unparsable_rows_dropped (parse : Cell → Option Nat) (status : Nat)
    (h : Hourly) (tcol : List Cell) (H : Int)
    (hst : statusFails status = false) (hw : sameLengths h = true)
    (ht : h.lookup "time" = some tcol) (hn : nRows h ≠ 0) (hH : 0 < H) :
    (∃ s l, fetch_hourly_weather_v2 parse (.ok status h) H = .ok s ∧
        s.timeIndex = some l ∧
        s.rows.length = min H.toNat (tcol.filterMap parse).length ∧
        l.length = s.rows.length ∧
        ∀ t ∈ l, t ∈ tcol.filterMap parse) ∧
    (parseAll parse tcol = none →
        fetch_hourly_weather_v1 parse (.ok status h) H = .error .parseErr) := by
  constructor
  · have hkept : ((keptRows parse h tcol).insertionSort byTime).length
        = (tcol.filterMap parse).length := by
      rw [List.length_insertionSort, ← keptRows_map_fst hw ht, List.length_map]
    have hfin : finalRows_v2 parse h tcol H =
        ((keptRows parse h tcol).insertionSort byTime).take H.toNat := by
      rw [finalRows_v2, if_pos hH, pySliceTo_nonneg (le_of_lt hH)]
    refine ⟨⟨(dataColumns h).map (fun c => renameKey c.1),
            some ((finalRows_v2 parse h tcol H).map Prod.fst),
            (finalRows_v2 parse h tcol H).map Prod.snd⟩,
           (finalRows_v2 parse h tcol H).map Prod.fst, ?_, rfl, ?_, ?_, ?_⟩
    · simp only [fetch_hourly_weather_v2, hst, Bool.false_eq_true, if_false]
      exact processHourly_v2_ok H hw ht hn
    · rw [List.length_map, hfin, List.length_take, hkept]
    · rw [List.length_map, List.length_map]
    · intro t htl
      rcases List.mem_map.mp htl with ⟨p, hp, rfl⟩
      have hsorted : p ∈ (keptRows parse h tcol).insertionSort byTime := by
        rw [hfin] at hp
        exact (List.take_sublist _ _).mem hp
      have hkeptm : p ∈ keptRows parse h tcol :=
        (List.perm_insertionSort byTime _).mem_iff.mp hsorted
      rw [← keptRows_map_fst hw ht]
      exact List.mem_map_of_mem _ hkeptm
  · intro hbad
    simp [fetch_hourly_weather_v1, hst, processHourly_v1, hw, ht, hbad]

theorem unparsable_rows_dropped_witness :
    (statusFails 200 = false ∧
     sameLengths [("time", [Cell.str "t1", Cell.str "x"]),
                  ("temperature_2m", [Cell.num 20, Cell.num 21])] = true ∧
     (([("time", [Cell.str "t1", Cell.str "x"]),
        ("temperature_2m", [Cell.num 20, Cell.num 21])] : Hourly).lookup "time")
       = some [Cell.str "t1", Cell.str "x"] ∧
     nRows [("time", [Cell.str "t1", Cell.str "x"]),
            ("temperature_2m", [Cell.num 20, Cell.num 21])] ≠ 0 ∧
     (0 : Int) < 48) ∧
    ((∃ s l, fetch_hourly_weather_v2 parse0
          (.ok 200 [("time", [Cell.str "t1", Cell.str "x"]),
                    ("temperature_2m", [Cell.num 20, Cell.num 21])]) 48 = .ok s ∧
        s.timeIndex = some l ∧
        s.rows.length
          = min (48 : Int).toNat
              (([Cell.str "t1", Cell.str "x"].filterMap parse0).length) ∧
        l.length = s.rows.length ∧
        ∀ t ∈ l, t ∈ [Cell.str "t1", Cell.str "x"].filterMap parse0) ∧
     (parseAll parse0 [Cell.str "t1", Cell.str "x"] = none →
        fetch_hourly_weather_v1 parse0
          (.ok 200 [("time", [Cell.str "t1", Cell.str "x"]),
                    ("temperature_2m", [Cell.num 20, Cell.num 21])]) 48
          = .error .parseErr)) :=
  ⟨⟨by decide, by decide, by decide, by decide, by decide⟩,
   unparsable_rows_dropped parse0 200 _ _ 48 (by decide) (by decide) (by decide)
     (by decide) (by decide)⟩

/-- C9: in the improved variant, a non-positive hours argument applies
no truncation: the returned HourlySeries contains every parsed row of
the upstream response (its timestamp index is a permutation of the
parsable timestamps and its row count equals their number). -/
theorem no_truncation_nonpositive_hours (parse : Cell → Option Nat)
    (status : Nat) (h : Hourly) (tcol : List Cell) (H : Int)
    (hst : statusFails status = false) (hw : sameLengths h = true)
    (ht : h.lookup "time" = some tcol) (hn : nRows h ≠ 0) (hH : H ≤ 0) :
    ∃ s l, fetch_hourly_weather_v2 parse (.ok status h) H = .ok s ∧
      s.timeIndex = some l ∧ l.Perm (tcol.filterMap parse) ∧
      s.rows.length = (tcol.filterMap parse).length := by
  have hfin : finalRows_v2 parse h tcol H =
      (keptRows parse h tcol).insertionSort byTime := by
    rw [finalRows_v2, if_neg (by omega)]
  refine ⟨⟨(dataColumns h).map (fun c => renameKey c.1),
          some ((finalRows_v2 parse h tcol H).map Prod.fst),
          (finalRows_v2 parse h tcol H).map Prod.snd⟩,
         (finalRows_v2 parse h tcol H).map Prod.fst, ?_, rfl, ?_, ?_⟩
  · simp only [fetch_hourly_weather_v2, hst, Bool.false_eq_true, if_false]
    exact processHourly_v2_ok H hw ht hn
  · rw [hfin, ← keptRows_map_fst hw ht]
    exact (List.perm_insertionSort byTime _).map Prod.fst
  · rw [List.length_map, hfin, List.length_insertionSort,
      ← keptRows_map_fst hw ht, List.length_map]

theorem no_truncation_nonpositive_hours_witness :
    (statusFails 200 = false ∧
     sameLengths [("time", [Cell.str "t1", Cell.str "t2"]),
                  ("temperature_2m", [Cell.num 20, Cell.num 21])] = true ∧
     (([("time", [Cell.str "t1", Cell.str "t2"]),
        ("temperature_2m", [Cell.num 20, Cell.num 21])] : Hourly).lookup "time")
       = some [Cell.str "t1", Cell.str "t2"] ∧
     nRows [("time", [Cell.str "t1", Cell.str "t2"]),
            ("temperature_2m", [Cell.num 20, Cell.num 21])] ≠ 0 ∧
     ((0 : Int) ≤ 0)) ∧
    (∃ s l, fetch_hourly_weather_v2 parse0
        (.ok 200 [("time", [Cell.str "t1", Cell.str "t2"]),
                  ("temperature_2m", [Cell.num 20, Cell.num 21])]) 0 = .ok s ∧
      s.timeIndex = some l ∧
      l.Perm ([Cell.str "t1", Cell.str "t2"].filterMap parse0) ∧
      s.rows.length = ([Cell.str "t1", Cell.str "t2"].filterMap parse0).length) :=
  ⟨⟨by decide, by decide, by decide, by decide, by decide⟩,
   no_truncation_nonpositive_hours parse0 200 _ _ 0 (by decide) (by decide)
     (by decide) (by decide) (by decide)⟩

theorem rows_ne_nil_of_not_isEmpty {s : Series} (hne : s.isEmpty = false) :
    s.rows ≠ [] := by
  intro h0
  rw [Series.isEmpty, h0] at hne
  simp at hne

/-- C4 (refuting the claim as stated): in the original variant, a
successful response whose hourly object is non-empty but lacks the
timestamp field does not yield an empty HourlySeries — the raw rows are
returned un-truncated (here 3 rows despite hours = 2) and the series is
not empty, so the caller does not reach the "no data" state. -/
theorem empty_hourly_no_data_cx :
    fetch_hourly_weather_v1 parse0
        (.ok 200 [("temperature_2m", [.num 20, .num 21, .num 22])]) 2
      = .ok ⟨[tempLabel], none, [[.num 20], [.num 21], [.num 22]]⟩ ∧
    Series.isEmpty ⟨[tempLabel], none, [[.num 20], [.num 21], [.num 22]]⟩ = false :=
  ⟨by decide, by decide⟩

/-- C4 (amended): in the improved variant, a successful response whose
hourly object is empty or lacks the timestamp field yields the
explicitly empty HourlySeries without raising, and the caller shows the
"no data" warning and halts.  In the original variant this holds when
the hourly object is empty, but for a non-empty hourly object lacking
only the timestamp field the original variant returns all raw rows
un-truncated with no time index. -/
theorem empty_hourly_no_data (parse : Cell → Option Nat) (status : Nat)
    (h : Hourly) (H : Int) (hst : statusFails status = false)
    (hw : sameLengths h = true) :
    ((h.lookup "time" = none ∨ nRows h = 0) →
        fetch_hourly_weather_v2 parse (.ok status h) H = .ok ⟨[], none, []⟩ ∧
        present_v2 (fetch_hourly_weather_v2 parse (.ok status h) H)
          = .noDataWarning) ∧
    (h = [] →
        fetch_hourly_weather_v1 parse (.ok status h) H = .ok ⟨[], none, []⟩ ∧
        present_v1 (fetch_hourly_weather_v1 parse (.ok status h) H)
          = .noDataWarning) ∧
    (h.lookup "time" = none →
        ∃ s, fetch_hourly_weather_v1 parse (.ok status h) H = .ok s ∧
          s.timeIndex = none ∧ s.rows.length = nRows h) := by
  refine ⟨?_, ?_, ?_⟩
  · intro hempty
    have hfe : fetch_hourly_weather_v2 parse (.ok status h) H = .ok ⟨[], none, []⟩ := by
      simp only [fetch_hourly_weather_v2, hst, Bool.false_eq_true, if_false]
      exact processHourly_v2_empty H hw hempty
    exact ⟨hfe, by rw [hfe]; rfl⟩
  · intro h0
    subst h0
    have hfe : fetch_hourly_weather_v1 parse (.ok status ([] : Hourly)) H
        = .ok ⟨[], none, []⟩ := by
      simp [fetch_hourly_weather_v1, hst, processHourly_v1, sameLengths,
        rowsOfN, nRows]
    exact ⟨hfe, by rw [hfe]; rfl⟩
  · intro ht
    refine ⟨⟨h.map (fun c => renameKey c.1), none, rowsOfN (nRows h) h⟩, ?_, rfl, ?_⟩
    · simp [fetch_hourly_weather_v1, hst, processHourly_v1, hw, ht]
    · exact length_rowsOfN _ _

theorem empty_hourly_no_data_witness :
    (statusFails 200 = false ∧
     sameLengths [("temperature_2m", [Cell.num 21])] = true) ∧
    ((((([("temperature_2m", [Cell.num 21])] : Hourly).lookup "time") = none ∨
        nRows [("temperature_2m", [Cell.num 21])] = 0) →
        fetch_hourly_weather_v2 parse0
            (.ok 200 [("temperature_2m", [Cell.num 21])]) 48 = .ok ⟨[], none, []⟩ ∧
        present_v2 (fetch_hourly_weather_v2 parse0
            (.ok 200 [("temperature_2m", [Cell.num 21])]) 48) = .noDataWarning) ∧
     (([("temperature_2m", [Cell.num 21])] : Hourly) = [] →
        fetch_hourly_weather_v1 parse0
            (.ok 200 [("temperature_2m", [Cell.num 21])]) 48 = .ok ⟨[], none, []⟩ ∧
        present_v1 (fetch_hourly_weather_v1 parse0
            (.ok 200 [("temperature_2m", [Cell.num 21])]) 48) = .noDataWarning) ∧
     ((([("temperature_2m", [Cell.num 21])] : Hourly).lookup "time") = none →
        ∃ s, fetch_hourly_weather_v1 parse0
            (.ok 200 [("temperature_2m", [Cell.num 21])]) 48 = .ok s ∧
          s.timeIndex = none ∧
          s.rows.length = nRows [("temperature_2m", [Cell.num 21])])) :=
  ⟨⟨by decide, by decide⟩,
   empty_hourly_no_data parse0 200 [("temperature_2m", [Cell.num 21])] 48
     (by decide) (by decide)⟩

/-- C8: for every non-empty HourlySeries, the summary row used for the
metric display is `df.iloc[0]` — the first row — in the original
variant, and `df.iloc[-1]` — the last row — in the improved variant. -/
theorem summary_row_first_vs_last (s : Series) (hne : s.isEmpty = false) :
    ilocRow 0 s.rows = s.rows.head? ∧
    ilocRow (-1) s.rows = s.rows.getLast? ∧
    (∀ first, s.rows.head? = some first →
        present_v1 (.ok s) = pageFrom_v1 s first) ∧
    (∀ last, s.rows.getLast? = some last →
        present_v2 (.ok s) = pageFrom_v2 s last) := by
  have hrows : s.rows ≠ [] := rows_ne_nil_of_not_isEmpty hne
  refine ⟨ilocRow_zero s.rows, ilocRow_neg_one hrows, ?_, ?_⟩
  · intro first h1
    rw [present_v1, if_neg (by simp [hne]), ilocRow_zero, h1]
  · intro last h2
    rw [present_v2, if_neg (by simp [hne]), ilocRow_neg_one hrows, h2]

theorem summary_row_first_vs_last_witness :
    (Series.isEmpty ⟨[tempLabel], some [1, 2], [[Cell.num 20], [Cell.num 21]]⟩
      = false) ∧
    (ilocRow 0 [[Cell.num 20], [Cell.num 21]]
        = ([[Cell.num 20], [Cell.num 21]] : List (List Cell)).head? ∧
     ilocRow (-1) [[Cell.num 20], [Cell.num 21]]
        = ([[Cell.num 20], [Cell.num 21]] : List (List Cell)).getLast? ∧
     (∀ first, ([[Cell.num 20], [Cell.num 21]] : List (List Cell)).head? = some first →
        present_v1 (.ok ⟨[tempLabel], some [1, 2], [[Cell.num 20], [Cell.num 21]]⟩)
          = pageFrom_v1 ⟨[tempLabel], some [1, 2], [[Cell.num 20], [Cell.num 21]]⟩ first) ∧
     (∀ last, ([[Cell.num 20], [Cell.num 21]] : List (List Cell)).getLast? = some last →
        present_v2 (.ok ⟨[tempLabel], some [1, 2], [[Cell.num 20], [Cell.num 21]]⟩)
          = pageFrom_v2 ⟨[tempLabel], some [1, 2], [[Cell.num 20], [Cell.num 21]]⟩ last)) :=
  ⟨by decide,
   summary_row_first_vs_last ⟨[tempLabel], some [1, 2], [[Cell.num 20], [Cell.num 21]]⟩
     (by decide)⟩

/-- C5 (refuting the claim as stated): in the original variant the
metrics are read without any defensive check — on a series lacking the
precipitation column, the render pass crashes with a KeyError instead of
showing a "not available" marker; the improved variant renders the page
with the explicit N/A marker on the same data. -/
theorem metrics_defensive_cx :
    present_v1 (fetch_hourly_weather_v1 parse0
        (.ok 200 [("time", [.str "t1"]), ("temperature_2m", [.num 20]),
                  ("windspeed_10m", [.num 5]),
                  ("relative_humidity_2m", [.num 60])]) 48)
      = .crash (.keyErr precipLabel) ∧
    present_v2 (fetch_hourly_weather_v2 parse0
        (.ok 200 [("time", [.str "t1"]), ("temperature_2m", [.num 20]),
                  ("windspeed_10m", [.num 5]),
                  ("relative_humidity_2m", [.num 60])]) 48)
      = .page [.val (.num 20), .val (.num 5), .na, .val (.num 60)] :=
  ⟨by decide, by decide⟩

/-- C5 (amended): for every non-empty HourlySeries, the improved variant
reads each of the four summary metrics from the summary row with a
defensive check — an absent column renders the explicit "N/A" marker and
a present column renders a value; the original variant reads the columns
unguarded, and if any of the four is absent the render pass crashes with
a KeyError instead. -/
theorem metrics_defensive (s : Series) (hne : s.isEmpty = false) :
    (∃ latest, ilocRow (-1) s.rows = some latest ∧
        present_v2 (.ok s) = pageFrom_v2 s latest ∧
        ∀ col ∈ [tempLabel, windLabel, precipLabel, rhLabel],
          (s.cols.contains col = false → metric_v2 s latest col = .na) ∧
          (s.cols.contains col = true → ∃ c, metric_v2 s latest col = .val c)) ∧
    (∀ col ∈ [tempLabel, windLabel, precipLabel, rhLabel],
        s.cols.contains col = false →
        ∃ k, present_v1 (.ok s) = .crash (.keyErr k)) := by
  have hrows : s.rows ≠ [] := rows_ne_nil_of_not_isEmpty hne
  constructor
  · have hsome : (s.rows.getLast?).isSome = true := List.getLast?_isSome.mpr hrows
    rcases Option.isSome_iff_exists.mp hsome with ⟨latest, hlast⟩
    refine ⟨latest, by rw [ilocRow_neg_one hrows, hlast], ?_, ?_⟩
    · rw [present_v2, if_neg (by simp [hne]), ilocRow_neg_one hrows, hlast]
    · intro col _
      constructor
      · intro habs
        rw [metric_v2, if_neg (fun hc => by rw [habs] at hc; cases hc)]
      · intro hpres
        rcases rowGet_ok_of_contains s latest col hpres with ⟨c, hc⟩
        exact ⟨c, by rw [metric_v2, if_pos hpres, hc]⟩
  · intro col hcol hmiss
    rcases hr : s.rows with _ | ⟨r, t⟩
    · exact absurd hr hrows
    have hlat : ilocRow 0 s.rows = some r := by rw [ilocRow_zero, hr]; rfl
    have hpres : present_v1 (.ok s) = pageFrom_v1 s r := by
      rw [present_v1, if_neg (by simp [hne]), hlat]
    by_cases h1 : s.cols.contains tempLabel = true
    · rcases rowGet_ok_of_contains s r tempLabel h1 with ⟨c1, hc1⟩
      by_cases h2 : s.cols.contains windLabel = true
      · rcases rowGet_ok_of_contains s r windLabel h2 with ⟨c2, hc2⟩
        by_cases h3 : s.cols.contains precipLabel = true
        · rcases rowGet_ok_of_contains s r precipLabel h3 with ⟨c3, hc3⟩
          by_cases h4 : s.cols.contains rhLabel = true
          · exfalso
            simp only [List.mem_cons, List.mem_singleton, List.not_mem_nil,
              or_false] at hcol
            rcases hcol with rfl | rfl | rfl | rfl
            · rw [h1] at hmiss; cases hmiss
            · rw [h2] at hmiss; cases hmiss
            · rw [h3] at hmiss; cases hmiss
            · rw [h4] at hmiss; cases hmiss
          · refine ⟨rhLabel, ?_⟩
            rw [hpres, pageFrom_v1, hc1, hc2, hc3,
              rowGet_err_of_not_contains s r rhLabel (Bool.of_not_eq_true h4)]
            rfl
        · refine ⟨precipLabel, ?_⟩
          rw [hpres, pageFrom_v1, hc1, hc2,
            rowGet_err_of_not_contains s r precipLabel (Bool.of_not_eq_true h3)]
          rfl
      · refine ⟨windLabel, ?_⟩
        rw [hpres, pageFrom_v1, hc1,
          rowGet_err_of_not_contains s r windLabel (Bool.of_not_eq_true h2)]
        rfl
    · refine ⟨tempLabel, ?_⟩
      rw [hpres, pageFrom_v1,
        rowGet_err_of_not_contains s r tempLabel (Bool.of_not_eq_true h1)]
      rfl

theorem metrics_defensive_witness :
    sNoPrecip.isEmpty = false ∧
    ((∃ latest, ilocRow (-1) sNoPrecip.rows = some latest ∧
        present_v2 (.ok sNoPrecip) = pageFrom_v2 sNoPrecip latest ∧
        ∀ col ∈ [tempLabel, windLabel, precipLabel, rhLabel],
          (sNoPrecip.cols.contains col = false →
            metric_v2 sNoPrecip latest col = .na) ∧
          (sNoPrecip.cols.contains col = true →
            ∃ c, metric_v2 sNoPrecip latest col = .val c)) ∧
     (∀ col ∈ [tempLabel, windLabel, precipLabel, rhLabel],
        sNoPrecip.cols.contains col = false →
        ∃ k, present_v1 (.ok sNoPrecip) = .crash (.keyErr k))) :=
  ⟨by decide, metrics_defensive sNoPrecip (by decide)⟩

/-- C7: for every successful forecast response that lacks one of the
four requested hourly variables (and does not accidentally carry a
column already named by its display label), the returned HourlySeries
has no column for that variable — the rename never synthesizes a
column — in both variants. -/
theorem absent_variable_not_synthesized (parse : Cell → Option Nat)
    (status : Nat) (h : Hourly) (H : Int) (raw lbl : String)
    (hpair : (raw, lbl) ∈ renameMap)
    (hraw : raw ∉ h.map Prod.fst) (hlbl : lbl ∉ h.map Prod.fst) :
    (∀ s, fetch_hourly_weather_v1 parse (.ok status h) H = .ok s →
        lbl ∉ s.cols) ∧
    (∀ s, fetch_hourly_weather_v2 parse (.ok status h) H = .ok s →
        lbl ∉ s.cols) := by
  constructor
  · intro s hs hmem
    by_cases hst : statusFails status = true
    · simp [fetch_hourly_weather_v1, hst] at hs
    · simp only [fetch_hourly_weather_v1, hst, if_false] at hs
      rcases cols_v1_from_input parse h H s hs lbl hmem with ⟨k, hk, hkeq⟩
      rcases renameKey_eq_label hpair hkeq.symm with rfl | rfl
      · exact hraw hk
      · exact hlbl hk
  · intro s hs hmem
    by_cases hst : statusFails status = true
    · simp [fetch_hourly_weather_v2, hst] at hs
    · simp only [fetch_hourly_weather_v2, hst, if_false] at hs
      rcases cols_v2_from_input parse h H s hs lbl hmem with ⟨k, hk, hkeq⟩
      rcases renameKey_eq_label hpair hkeq.symm with rfl | rfl
      · exact hraw hk
      · exact hlbl hk

theorem absent_variable_not_synthesized_witness :
    (("precipitation", precipLabel) ∈ renameMap ∧
     "precipitation" ∉ (([("time", [Cell.str "t1"]),
        ("temperature_2m", [Cell.num 20])] : Hourly).map Prod.fst) ∧
     precipLabel ∉ (([("time", [Cell.str "t1"]),
        ("temperature_2m", [Cell.num 20])] : Hourly).map Prod.fst)) ∧
    ((∀ s, fetch_hourly_weather_v1 parse0
        (.ok 200 [("time", [Cell.str "t1"]), ("temperature_2m", [Cell.num 20])])
          48 = .ok s → precipLabel ∉ s.cols) ∧
     (∀ s, fetch_hourly_weather_v2 parse0
        (.ok 200 [("time", [Cell.str "t1"]), ("temperature_2m", [Cell.num 20])])
          48 = .ok s → precipLabel ∉ s.cols)) :=
  ⟨⟨by decide, by decide, by decide⟩,
   absent_variable_not_synthesized parse0 200 _ 48 "precipitation" precipLabel
     (by decide) (by decide) (by decide)⟩

theorem dataCols_rename_eq (h : Hourly) :
    (dataColumns h).map (fun c => renameKey c.1)
      = ((h.map Prod.fst).filter (fun k => k != "time")).map renameKey := by
  rw [List.filter_map, List.map_map]
  rfl

/-- C10 (refuting the claim as stated): in the improved variant, a
successful response with data columns but no time field takes the
empty-frame path, so the returned column set is empty instead of the
relabelled upstream column set. -/
theorem columns_relabelled_cx :
    fetch_hourly_weather_v2 parse0 (.ok 200 [("temperature_2m", [.num 1])]) 48
      = .ok ⟨[], none, []⟩ ∧
    ((([("temperature_2m", [Cell.num 1])] : Hourly).map Prod.fst).filter
        (fun k => k != "time")).map renameKey = [tempLabel] ∧
    (Series.cols ⟨[], none, []⟩ : List String) ≠ [tempLabel] :=
  ⟨by decide, by decide, by decide⟩

/-- C10 (amended): the column list of the returned HourlySeries equals
the keys of the parsed hourly object, minus the timestamp key, each
relabelled by the rename map (known variable keys get their display
label, all other keys are kept unchanged) — always in the original
variant, and in the improved variant whenever it does not take the
empty-result path; on that path (time absent or zero rows) the improved
variant returns a frame with no columns at all. -/
theorem columns_relabelled (parse : Cell → Option Nat) (status : Nat)
    (h : Hourly) (H : Int)
    (hst : statusFails status = false) (hw : sameLengths h = true) :
    (∀ s, fetch_hourly_weather_v1 parse (.ok status h) H = .ok s →
        s.cols = ((h.map Prod.fst).filter (fun k => k != "time")).map renameKey) ∧
    (h.lookup "time" ≠ none → nRows h ≠ 0 →
        ∀ s, fetch_hourly_weather_v2 parse (.ok status h) H = .ok s →
          s.cols = ((h.map Prod.fst).filter (fun k => k != "time")).map renameKey) ∧
    ((h.lookup "time" = none ∨ nRows h = 0) →
        fetch_hourly_weather_v2 parse (.ok status h) H = .ok ⟨[], none, []⟩) := by
  refine ⟨?_, ?_, ?_⟩
  · intro s hs
    simp only [fetch_hourly_weather_v1, hst, Bool.false_eq_true, if_false] at hs
    unfold processHourly_v1 at hs
    split at hs
    · cases hs
    · split at hs
      · cases hs
        have hfid : (h.map Prod.fst).filter (fun k => k != "time")
            = h.map Prod.fst := by
          apply List.filter_eq_self.mpr
          intro k hk
          rcases List.mem_map.mp hk with ⟨c, hc, rfl⟩
          have hne := (List.lookup_eq_none_iff.mp (by assumption)) c hc
          have : "time" ≠ c.1 := by simpa using hne
          simpa using this.symm
        rw [hfid, List.map_map]
        rfl
      · split at hs
        · cases hs
        · cases hs
          exact dataCols_rename_eq h
  · intro ht hn s hs
    rcases hlk : h.lookup "time" with _ | tcol
    · exact absurd hlk ht
    simp only [fetch_hourly_weather_v2, hst, Bool.false_eq_true, if_false] at hs
    rw [processHourly_v2_ok H hw hlk hn] at hs
    cases hs
    exact dataCols_rename_eq h
  · intro hempty
    simp only [fetch_hourly_weather_v2, hst, Bool.false_eq_true, if_false]
    exact processHourly_v2_empty H hw hempty

theorem columns_relabelled_witness :
    (statusFails 200 = false ∧
     sameLengths [("time", [Cell.str "t1"]), ("temperature_2m", [Cell.num 20]),
                  ("extra_col", [Cell.num 7])] = true) ∧
    ((∀ s, fetch_hourly_weather_v1 parse0
        (.ok 200 [("time", [Cell.str "t1"]), ("temperature_2m", [Cell.num 20]),
                  ("extra_col", [Cell.num 7])]) 48 = .ok s →
        s.cols = ((([("time", [Cell.str "t1"]), ("temperature_2m", [Cell.num 20]),
            ("extra_col", [Cell.num 7])] : Hourly).map Prod.fst).filter
              (fun k => k != "time")).map renameKey) ∧
     ((([("time", [Cell.str "t1"]), ("temperature_2m", [Cell.num 20]),
          ("extra_col", [Cell.num 7])] : Hourly).lookup "time") ≠ none →
        nRows [("time", [Cell.str "t1"]), ("temperature_2m", [Cell.num 20]),
               ("extra_col", [Cell.num 7])] ≠ 0 →
        ∀ s, fetch_hourly_weather_v2 parse0
          (.ok 200 [("time", [Cell.str "t1"]), ("temperature_2m", [Cell.num 20]),
                    ("extra_col", [Cell.num 7])]) 48 = .ok s →
          s.cols = ((([("time", [Cell.str "t1"]), ("temperature_2m", [Cell.num 20]),
              ("extra_col", [Cell.num 7])] : Hourly).map Prod.fst).filter
                (fun k => k != "time")).map renameKey) ∧
     ((([("time", [Cell.str "t1"]), ("temperature_2m", [Cell.num 20]),
          ("extra_col", [Cell.num 7])] : Hourly).lookup "time") = none ∨
        nRows [("time", [Cell.str "t1"]), ("temperature_2m", [Cell.num 20]),
               ("extra_col", [Cell.num 7])] = 0 →
        fetch_hourly_weather_v2 parse0
          (.ok 200 [("time", [Cell.str "t1"]), ("temperature_2m", [Cell.num 20]),
                    ("extra_col", [Cell.num 7])]) 48 = .ok ⟨[], none, []⟩)) :=
  ⟨⟨by decide, by decide⟩,
   columns_relabelled parse0 200
     [("time", [Cell.str "t1"]), ("temperature_2m", [Cell.num 20]),
      ("extra_col", [Cell.num 7])] 48 (by decide) (by decide)⟩

theorem truthy_some {o : Option String} (h : truthy o = true) :
    ∃ s, o = some s ∧ s ≠ "" := by
  cases o with
  | none => simp [truthy] at h
  | some s =>
    refine ⟨s, rfl, ?_⟩
    intro h0
    rw [h0] at h
    simp [truthy] at h

theorem falsy_cases {o : Option String} (h : truthy o = false) :
    o = none ∨ o = some "" := by
  cases o with
  | none => exact Or.inl rfl
  | some s =>
    right
    simp only [truthy] at h
    rw [Bool.not_eq_false'] at h
    have : s = "" := by simpa using h
    rw [this]

theorem keepTruthy_ne_nil {l : List (Option String)} {x : String}
    (hx : some x ∈ l) (hne : x ≠ "") : keepTruthy l ≠ [] := by
  intro h0
  have hmem : x ∈ keepTruthy l := by
    simp only [keepTruthy, List.mem_filterMap]
    exact ⟨some x, hx, by simp [hne]⟩
  rw [h0] at hmem
  simp at hmem

theorem admin_ne_empty {a1 a2 : Option String}
    (h : truthy a1 = true ∨ truthy a2 = true) :
    pyOr a1 (pyOr a2 "") ≠ "" := by
  rcases h with h | h
  · exact (pyOr_of_truthy h _).2
  · by_cases h1 : truthy a1 = true
    · exact (pyOr_of_truthy h1 _).2
    · rw [pyOr_of_falsy (Bool.of_not_eq_true h1)]
      exact (pyOr_of_truthy h _).2

/-- C3 (refuting the claim as stated): on a successful geocoding
response whose first result has no name, admin or country field,
reverse_geocode returns the empty string, not a non-empty label and not
the coordinate fallback. -/
theorem reverse_geocode_nonempty_cx :
    reverse_geocode 10 20 (.ok 200 [⟨none, none, none, none⟩]) = "" := by rfl

/-- C3 (amended): reverse_geocode never raises (it is a total function
of the geocoding outcome); on every failure path — transport failure,
malformed JSON, non-success status, or empty result list — it returns
the coordinate fallback (latitude and longitude to 3 decimal places),
which is never empty; on success with at least one result it returns the
label composed from the first result, which is non-empty whenever at
least one of the name / admin1 / admin2 / country fields is present and
non-empty, but is the empty string when all of them are absent or
empty. -/
theorem reverse_geocode_fallback_or_label (lat lon : ℚ) (resp : GeoResp) :
    coordFallback lat lon ≠ "" ∧
    ((resp = .transportErr ∨ resp = .badJson ∨
        ∃ status results, resp = .ok status results ∧
          (statusFails status = true ∨ results = [])) →
      reverse_geocode lat lon resp = coordFallback lat lon) ∧
    (∀ status item rest, resp = .ok status (item :: rest) →
      statusFails status = false →
      reverse_geocode lat lon resp = composeLabel item ∧
      ((truthy item.name || truthy item.admin1 || truthy item.admin2 ||
          truthy item.country) = true → composeLabel item ≠ "") ∧
      (truthy item.name = false → truthy item.admin1 = false →
        truthy item.admin2 = false → truthy item.country = false →
        composeLabel item = "")) := by
  refine ⟨coordFallback_ne_empty lat lon, ?_, ?_⟩
  · intro hfail
    rcases hfail with rfl | rfl | ⟨status, results, rfl, hbad⟩
    · rfl
    · rfl
    · rcases hbad with hst | rfl
      · simp [reverse_geocode, hst]
      · rcases hst2 : statusFails status with _ | _ <;>
          simp [reverse_geocode, hst2]
  · intro status item rest hresp hstf
    subst hresp
    refine ⟨by simp [reverse_geocode, hstf], ?_, ?_⟩
    · intro htruthy
      apply joinComma_ne_empty _ (fun p hp => keepTruthy_mem hp)
      simp only [Bool.or_eq_true] at htruthy
      rcases htruthy with ((hn | ha1) | ha2) | hc
      · rcases truthy_some hn with ⟨s, hs, hsne⟩
        exact keepTruthy_ne_nil (by simp [hs]) hsne
      · exact keepTruthy_ne_nil
          (x := pyOr item.admin1 (pyOr item.admin2 ""))
          (l := [item.name, some (pyOr item.admin1 (pyOr item.admin2 "")),
                 some (pyOr item.country "")])
          (by simp) (admin_ne_empty (Or.inl ha1))
      · exact keepTruthy_ne_nil
          (x := pyOr item.admin1 (pyOr item.admin2 ""))
          (l := [item.name, some (pyOr item.admin1 (pyOr item.admin2 "")),
                 some (pyOr item.country "")])
          (by simp) (admin_ne_empty (Or.inr ha2))
      · exact keepTruthy_ne_nil
          (x := pyOr item.country "")
          (l := [item.name, some (pyOr item.admin1 (pyOr item.admin2 "")),
                 some (pyOr item.country "")])
          (by simp) (pyOr_of_truthy hc "").2
    · intro h1 h2 h3 h4
      have hadmin : pyOr item.admin1 (pyOr item.admin2 "") = "" := by
        rw [pyOr_of_falsy h2, pyOr_of_falsy h3]
      have hcountry : pyOr item.country "" = "" := pyOr_of_falsy h4 ""
      rw [composeLabel, hadmin, hcountry]
      rcases falsy_cases h1 with hn | hn <;> simp [hn, keepTruthy, joinComma]

theorem reverse_geocode_fallback_or_label_witness :
    (reverse_geocode 10 20 .transportErr = coordFallback 10 20 ∧
     coordFallback 10 20 = "10.000, 20.000") ∧
    (∀ status item rest,
      (GeoResp.ok 200 [⟨some "Seoul", none, none, some "South Korea"⟩])
        = .ok status (item :: rest) →
      statusFails status = false →
      reverse_geocode 10 20
          (.ok 200 [⟨some "Seoul", none, none, some "South Korea"⟩])
        = composeLabel item ∧
      ((truthy item.name || truthy item.admin1 || truthy item.admin2 ||
          truthy item.country) = true → composeLabel item ≠ "") ∧
      (truthy item.name = false → truthy item.admin1 = false →
        truthy item.admin2 = false → truthy item.country = false →
        composeLabel item = "")) ∧
    composeLabel ⟨some "Seoul", none, none, some "South Korea"⟩
      = "Seoul, South Korea" :=
  ⟨⟨(reverse_geocode_fallback_or_label 10 20 .transportErr).2.1 (Or.inl rfl),
    by decide⟩,
   (reverse_geocode_fallback_or_label 10 20
      (.ok 200 [⟨some "Seoul", none, none, some "South Korea"⟩])).2.2,
   by decide⟩
